import Mathlib

/-!
Shallow embedding of the CaptureFlow camera component
(`src/pages/camera.tsx` of the style-transfer-art-installation repository).

The component holds five React state variables; we collect them in a
`Session` record.  Each event handler of the component becomes a pure
function from `Session` (plus an environment record standing for the
browser and storage collaborators) to `Session`.  External calls —
`atob`, `canvas.toDataURL`, `supabase.storage.upload`, `getPublicUrl`,
`getUserMedia` — are parameters of the environment; everything the
repository's own code does (string splitting, mime extraction, the byte
copy, the state-setter sequences, the try/catch discipline) is embedded
directly.
-/

/-- The three UI states of the component: `useState<"camera" | "preview" | "processing">`. -/
inductive AppState
  | camera
  | preview
  | processing
deriving DecidableEq, Repr

/-- The React state variables of the `Camera` component (camera.tsx lines 31–39). -/
structure Session where
  appState : AppState
  capturedImage : Option String
  selectedFilter : Option Nat
  processedImage : Option String
  isUploading : Bool
  error : Option String
deriving DecidableEq, Repr

/-- Initial values of the five `useState` hooks. -/
def initialSession : Session :=
  { appState := .camera
    capturedImage := none
    selectedFilter := none
    processedImage := none
    isUploading := false
    error := none }

/-- The generic failure message stored by the catch block (camera.tsx line 140). -/
def uploadFailMsg : String := "Failed to upload image. Please try again."

/-- JavaScript coerces `undefined` to the string "undefined" when it is
passed to `atob`, which happens when the data URL contains no comma. -/
def undefinedStr : String := "undefined"

/-- Storage directory used for uploads: `originals/` (camera.tsx line 122). -/
def originalsDir : String := "originals/"

/-- Leading part of the generated file name `photo-<timestamp>.png`. -/
def photoStem : String := "photo-"

/-- Trailing part of the generated file name. -/
def pngSuffix : String := ".png"

/-- Generated file name `photo-${Date.now()}.png` (camera.tsx line 116). -/
def photoName (now : Nat) : String := photoStem ++ toString now ++ pngSuffix

/-- Model of a JavaScript `File` object as produced by `dataURLtoFile`:
payload bytes, file name, and the optional mime type. -/
structure JsFile where
  bytes : List Nat
  name : String
  mime : Option String
deriving DecidableEq, Repr

/-- Characters after the first ':' of the string, if any
(first half of the regex `/:(.*?);/`). -/
def afterColon : List Char → Option (List Char)
  | [] => none
  | c :: rest => if c = ':' then some rest else afterColon rest

/-- Characters up to the first ';', if any
(second half of the regex `/:(.*?);/`). -/
def upToSemi : List Char → Option (List Char)
  | [] => none
  | c :: rest => if c = ';' then some [] else (upToSemi rest).map (c :: ·)

/-- Result of `arr[0].match(/:(.*?);/)?.[1]`: the text strictly between the
first ':' and the first ';' after it, when both exist.  The lazy regex
never succeeds at a later ':' when it fails at the first one, because any
';' after a later ':' also lies after the first ':'. -/
def mimeOf (s : String) : Option String :=
  (afterColon s.toList).bind fun rest => (upToSemi rest).map fun cs => String.mk cs

/-- JavaScript's `dataurl.split(",")` on the underlying character list:
splits at every comma and keeps empty parts, so the result is never the
empty list (splitting the empty string gives one empty part). -/
def splitComma : List Char → List (List Char)
  | [] => [[]]
  | c :: rest =>
    match splitComma rest with
    | [] => [[]]
    | g :: gs => if c = ',' then [] :: g :: gs else (c :: g) :: gs

/-- Embedding of `dataURLtoFile` (camera.tsx lines 17–27).  `atob` is the
browser's base64 decoder, passed in as an environment function that either
throws (`Except.error`) or yields the decoded byte string.  The `while`
loop copies `bstr.charCodeAt(n)` into index `n` for every `n`, i.e. the
file bytes are exactly the decoded bytes in order.  When the data URL has
no comma, `arr[1]` is `undefined` and JavaScript passes the string
"undefined" to `atob`. -/
def dataURLtoFile (atob : String → Except Unit (List Nat))
    (dataurl : String) (filename : String) : Except Unit JsFile :=
  let arr := splitComma dataurl.toList
  match atob (String.mk (arr.getD 1 undefinedStr.toList)) with
  | .error e => .error e
  | .ok bstr =>
      .ok { bytes := bstr, name := filename, mime := mimeOf (String.mk (arr.headD [])) }

/-- Outcome of the `supabase.storage.upload` call: resolves with no error
field, resolves with a non-null `uploadError` (then the code throws it), or
the promise itself rejects.  Both failure forms land in the catch block. -/
inductive UploadOutcome
  | ok
  | errField (msg : String)
  | rejected
deriving DecidableEq, Repr

/-- Environment of one `applyFilter` run: the clock (`Date.now()`), the
base64 decoder, and the two storage-collaborator operations. -/
structure UploadEnv where
  now : Nat
  atob : String → Except Unit (List Nat)
  upload : String → JsFile → UploadOutcome
  getPublicUrl : String → Except Unit String

/-- Result of an `applyFilter` run: the final session, plus the path and
payload actually handed to the storage collaborator's upload call (if the
call was reached). -/
structure ApplyResult where
  session : Session
  uploaded : Option (String × JsFile)
deriving DecidableEq, Repr

/-- The synchronous head of `applyFilter` (camera.tsx lines 106–108),
executed before the try block: `setSelectedFilter(filterId)`,
`setAppState("processing")`, `setError(null)`. -/
def applyFilterPrelude (s : Session) (filterId : Nat) : Session :=
  { s with selectedFilter := some filterId, appState := .processing, error := none }

/-- Final session of every failure path of `applyFilter`: the catch block
(camera.tsx lines 138–143) stores the generic message, clears the
uploading flag and returns to preview.  `processedImage` is not touched. -/
def applyFilterCatch (s : Session) : Session :=
  { s with error := some uploadFailMsg, isUploading := false, appState := .preview }

/-- Embedding of `applyFilter` (camera.tsx lines 105–144).  The non-null
assertion `capturedImage!` is a compile-time cast only: when
`capturedImage` is null at run time, `dataurl.split` throws a TypeError
inside the try block, which the catch block handles like any other
failure.  On success the public URL of the uploaded path is stored as
`processedImage`; no step clears a previously stored `processedImage`. -/
def applyFilter (env : UploadEnv) (s : Session) (filterId : Nat) : ApplyResult :=
  let s1 := { applyFilterPrelude s filterId with isUploading := true }
  match s.capturedImage with
  | none => { session := applyFilterCatch s1, uploaded := none }
  | some dataurl =>
    match dataURLtoFile env.atob dataurl (photoName env.now) with
    | .error _ => { session := applyFilterCatch s1, uploaded := none }
    | .ok imageFile =>
      let path := originalsDir ++ imageFile.name
      match env.upload path imageFile with
      | .ok =>
        match env.getPublicUrl path with
        | .ok url =>
            { session := { s1 with processedImage := some url, isUploading := false }
              uploaded := some (path, imageFile) }
        | .error _ => { session := applyFilterCatch s1, uploaded := some (path, imageFile) }
      | .errField _ => { session := applyFilterCatch s1, uploaded := some (path, imageFile) }
      | .rejected => { session := applyFilterCatch s1, uploaded := some (path, imageFile) }

/-- Embedding of `retakePicture` (camera.tsx lines 98–102): clear
`capturedImage` and `selectedFilter`, return to the camera state.
`processedImage`, `error` and `isUploading` are left as they are. -/
def retakePicture (s : Session) : Session :=
  { s with capturedImage := none, selectedFilter := none, appState := .camera }

/-- The live video element: its native resolution and current frame content. -/
structure Video where
  videoWidth : Nat
  videoHeight : Nat
  pixels : List Nat
deriving DecidableEq, Repr

/-- The raster drawn into the canvas: its dimensions and pixel content. -/
structure Frame where
  width : Nat
  height : Nat
  pixels : List Nat
deriving DecidableEq, Repr

/-- The off-screen canvas: current dimensions and drawn content. -/
structure Canvas where
  width : Nat
  height : Nat
  content : Option Frame
deriving DecidableEq, Repr

/-- Environment of one `takePicture` invocation: the two refs, whether the
2d context is available, and the browser's lossless PNG encoder
`canvas.toDataURL("image/png")`. -/
structure CaptureEnv where
  videoRef : Option Video
  canvasRef : Option Canvas
  ctx2d : Bool
  toDataURL : Frame → String

/-- Result of a `takePicture` invocation: the session and the canvas
afterwards (the canvas is mutated even when the context is unavailable). -/
structure CaptureResult where
  session : Session
  canvas : Option Canvas

/-- Embedding of `takePicture` (camera.tsx lines 75–95).  When both refs
are set, the canvas is sized to the video's native resolution; when the 2d
context is also available, the current frame is drawn at that size,
serialized with `toDataURL` and stored as `capturedImage`, and the state
becomes preview.  When either ref is null, nothing happens at all. -/
def takePicture (env : CaptureEnv) (s : Session) : CaptureResult :=
  match env.videoRef, env.canvasRef with
  | some video, some canvas =>
    let sized := { canvas with width := video.videoWidth, height := video.videoHeight }
    if env.ctx2d then
      let frame : Frame := { width := sized.width, height := sized.height, pixels := video.pixels }
      { session := { s with capturedImage := some (env.toDataURL frame), appState := .preview }
        canvas := some { sized with content := some frame } }
    else
      { session := s, canvas := some sized }
  | _, _ => { session := s, canvas := env.canvasRef }

/-- Outcome of the `getUserMedia` promise in `startCamera`. -/
inductive AcquireOutcome
  | success (streamId : Nat)
  | failure
deriving DecidableEq, Repr

/-- Component state visible to `startCamera`: the session and the
`srcObject` of the video element (a stream identifier when bound). -/
structure CamComponent where
  session : Session
  srcObject : Option Nat
deriving DecidableEq, Repr

/-- Embedding of `startCamera` (camera.tsx lines 48–60): on success the
stream is bound to the video element when the ref is set; on failure the
error is only logged — no state variable is written. -/
def startCamera (videoPresent : Bool) (outcome : AcquireOutcome)
    (c : CamComponent) : CamComponent :=
  match outcome with
  | .success id => if videoPresent then { c with srcObject := some id } else c
  | .failure => c

/-- Identifiers of the static filter catalog (camera.tsx lines 5–14);
the preview UI offers exactly these four choices. -/
def filterIds : List Nat := [1, 2, 3, 4]

/-- One user-triggered transition of the component, guarded exactly by the
conditions under which the JSX renders the triggering control
(camera.tsx lines 147–267): the shutter only in the camera state; retake
and the filter tiles only in preview with a captured image; "Try Again"
only in processing with an error; "Take New Photo" only in processing with
a result and no error.  "Try Again" merely sets the state back to preview
(line 222) — it clears nothing. -/
inductive Step : Session → Session → Prop
  | take (env : CaptureEnv) (s : Session) :
      s.appState = .camera → Step s (takePicture env s).session
  | retakePrev (s : Session) :
      s.appState = .preview → s.capturedImage.isSome → Step s (retakePicture s)
  | applyF (env : UploadEnv) (fid : Nat) (s : Session) :
      s.appState = .preview → s.capturedImage.isSome → fid ∈ filterIds →
      Step s (applyFilter env s fid).session
  | tryAgain (s : Session) :
      s.appState = .processing → s.error.isSome →
      Step s { s with appState := .preview }
  | retakeResult (s : Session) :
      s.appState = .processing → s.error = none → s.processedImage.isSome →
      Step s (retakePicture s)

/-- Sessions reachable from the initial render through the exposed controls. -/
inductive Reach : Session → Prop
  | init : Reach initialSession
  | step {s s' : Session} : Reach s → Step s s' → Reach s'

/-- Concrete capture environment used in reachability traces: a ready
640×480 video, a ready canvas and context, and a fixed encoder output. -/
def demoDataUrl : String := "data:image/png;base64,AAAA"

def demoCaptureEnv : CaptureEnv :=
  { videoRef := some { videoWidth := 640, videoHeight := 480, pixels := [7] }
    canvasRef := some { width := 0, height := 0, content := none }
    ctx2d := true
    toDataURL := fun _ => demoDataUrl }

/-- Concrete upload environment in which every step succeeds. -/
def demoUrlFor (path : String) : String := "https://cdn.example/" ++ path

def demoOkEnv : UploadEnv :=
  { now := 0
    atob := fun _ => .ok [0]
    upload := fun _ _ => .ok
    getPublicUrl := fun path => .ok (demoUrlFor path) }

/-- Concrete upload environment in which the upload call rejects. -/
def demoFailEnv : UploadEnv :=
  { now := 0
    atob := fun _ => .ok [0]
    upload := fun _ _ => .rejected
    getPublicUrl := fun path => .ok (demoUrlFor path) }

/-- The public URL produced by a successful demo run. -/
def demoResultUrl : String := demoUrlFor (originalsDir ++ photoName 0)

/-- Session after capturing a frame in the demo environment. -/
def previewSession : Session :=
  { initialSession with appState := .preview, capturedImage := some demoDataUrl }

/-- Session after a successful demo upload: processing with a result. -/
def resultSession : Session :=
  { appState := .processing
    capturedImage := some demoDataUrl
    selectedFilter := some 1
    processedImage := some demoResultUrl
    isUploading := false
    error := none }

/-- Session after pressing "Take New Photo" on the result screen: back in
the camera state while `processedImage` is still set. -/
def staleCameraSession : Session :=
  { resultSession with capturedImage := none, selectedFilter := none, appState := .camera }

/-- Session after capturing a second frame while the stale result is still
stored: preview with `processedImage` set. -/
def stalePreviewSession : Session :=
  { staleCameraSession with appState := .preview, capturedImage := some demoDataUrl }

/-- State of the camera-acquisition lifecycle (the `useEffect` of
camera.tsx lines 46–72 together with the browser's stream objects):
whether the effect for the camera state is currently active, a fresh-id
counter, the `getUserMedia` promises issued but not yet resolved, the
`srcObject` of the currently mounted video element, and the streams whose
tracks are live. -/
structure CamLifecycle where
  inCamera : Bool
  nextId : Nat
  pending : List Nat
  bound : Option Nat
  active : List Nat
deriving DecidableEq, Repr

/-- Events of the lifecycle: the effect body runs on entering the camera
state (issuing an acquisition), a pending acquisition resolves (the
browser creates a live stream, and `startCamera` binds it only when the
video element is still mounted), and the effect cleanup runs on leaving
the camera state or on teardown — after React's commit mutation phase has
already removed the `<video>` element, which is rendered only under
`appState === "camera"`, and detached the ref. -/
inductive CamEvent
  | enter
  | resolveOk
  | cleanup
deriving DecidableEq, Repr

/-- The lifecycle step function.  `startCamera` is asynchronous, so a
resolution may happen at any later point, also after the cleanup already
ran; a stream that resolves then is bound to nothing.  The cleanup
(camera.tsx lines 65–70) reads `videoRef.current?.srcObject`, but it is a
passive-effect cleanup and fires only after the mutation phase has
unmounted the video element and set the ref to null, so `stream` is
undefined and the track-stopping loop never runs: no event ever removes a
stream from `active`. -/
def camStep (c : CamLifecycle) : CamEvent → Option CamLifecycle
  | .enter =>
      if c.inCamera then none
      else some { c with inCamera := true
                         pending := c.pending ++ [c.nextId]
                         nextId := c.nextId + 1 }
  | .resolveOk =>
      match c.pending with
      | [] => none
      | k :: rest =>
          some { c with pending := rest
                        active := c.active ++ [k]
                        bound := if c.inCamera then some k else c.bound }
  | .cleanup =>
      if c.inCamera then
        some { c with inCamera := false, bound := none }
      else none

/-- Lifecycle before the first render: no effect, no streams. -/
def initLifecycle : CamLifecycle :=
  { inCamera := false, nextId := 0, pending := [], bound := none, active := [] }

/-- Run a chronological list of lifecycle events from a state. -/
def runCam (c : CamLifecycle) : List CamEvent → Option CamLifecycle
  | [] => some c
  | e :: t => (camStep c e).bind fun c' => runCam c' t

/-- Final session of a failed `applyFilter` run, written out field by
field: preview, generic message, uploading flag cleared, and the
previously stored `capturedImage` and `processedImage` untouched. -/
def applyFailState (s : Session) (fid : Nat) : Session :=
  { appState := .preview
    capturedImage := s.capturedImage
    selectedFilter := some fid
    processedImage := s.processedImage
    isUploading := false
    error := some uploadFailMsg }

/-- Final session of a successful `applyFilter` run, written out field by
field: still processing, result URL stored, error unset. -/
def applySuccessState (s : Session) (fid : Nat) (url : String) : Session :=
  { appState := .processing
    capturedImage := s.capturedImage
    selectedFilter := some fid
    processedImage := some url
    isUploading := false
    error := none }

/-- Mime type extracted from the demo data URL. -/
def pngMime : String := "image/png"

/-- The `File` object produced by `dataURLtoFile` in the demo
environment: the decoded byte [0], the generated name, the png mime. -/
def demoFile : JsFile :=
  { bytes := [0], name := photoName 0, mime := some pngMime }

/-- The spec's own resource scenario, mount → unmount → remount, with each
acquisition resolving while the camera is still mounted: enter, resolve,
cleanup, enter, resolve. -/
def remountTrace : List CamEvent :=
  [.enter, .resolveOk, .cleanup, .enter, .resolveOk]

/-- Lifecycle state after `remountTrace`: both streams still have live
tracks, because the cleanup stopped nothing. -/
def remountFinal : CamLifecycle :=
  { inCamera := true, nextId := 2, pending := [], bound := some 1, active := [0, 1] }

/-- A camera state with one resolved stream bound and live, about to exit. -/
def camDemoPre : CamLifecycle :=
  { inCamera := true, nextId := 1, pending := [], bound := some 0, active := [0] }

/-- The state after the exit cleanup: stream 0 is unbound but still live. -/
def camDemoPost : CamLifecycle :=
  { inCamera := false, nextId := 1, pending := [], bound := none, active := [0] }

theorem reach_previewSession : Reach previewSession :=
  Reach.step Reach.init (Step.take demoCaptureEnv initialSession rfl)

theorem reach_resultSession : Reach resultSession :=
  Reach.step reach_previewSession
    (Step.applyF demoOkEnv 1 previewSession rfl rfl (by decide))

theorem reach_staleCameraSession : Reach staleCameraSession :=
  Reach.step reach_resultSession
    (Step.retakeResult resultSession rfl rfl rfl)

theorem reach_stalePreviewSession : Reach stalePreviewSession :=
  Reach.step reach_staleCameraSession
    (Step.take demoCaptureEnv staleCameraSession rfl)

theorem dataURLtoFile_name (atob : String → Except Unit (List Nat))
    (du fn : String) (f : JsFile)
    (h : dataURLtoFile atob du fn = Except.ok f) : f.name = fn := by
  simp only [dataURLtoFile] at h
  rcases ha : atob (String.mk ((splitComma du.toList).getD 1 undefinedStr.toList)) with e | bs <;>
    rw [ha] at h
  · cases h
  · cases h; rfl

/-- Every `applyFilter` run ends in exactly one of two session shapes:
the catch-block state, or the success state holding the public URL that
the storage collaborator resolved for the generated path. -/
theorem applyFilter_session_cases (env : UploadEnv) (s : Session) (fid : Nat) :
    (applyFilter env s fid).session = applyFailState s fid ∨
    ∃ url, env.getPublicUrl (originalsDir ++ photoName env.now) = Except.ok url ∧
      (applyFilter env s fid).session = applySuccessState s fid url := by
  unfold applyFilter
  rcases hci : s.capturedImage with _ | du
  · left; rfl
  · simp only []
    rcases hdf : dataURLtoFile env.atob du (photoName env.now) with e | f
    · left; rfl
    · have hname : f.name = photoName env.now :=
        dataURLtoFile_name env.atob du (photoName env.now) f hdf
      simp only [hname]
      rcases hup : env.upload (originalsDir ++ photoName env.now) f with _ | m | _
      · rcases hurl : env.getPublicUrl (originalsDir ++ photoName env.now) with e | url
        · left; rfl
        · right; exact ⟨url, rfl, rfl⟩
      · left; rfl
      · left; rfl

/-- A `takePicture` invocation either leaves the session untouched or
stores some encoded frame and moves to preview, changing nothing else. -/
theorem takePicture_session_cases (env : CaptureEnv) (s : Session) :
    (takePicture env s).session = s ∨
    ∃ du, (takePicture env s).session =
      { s with capturedImage := some du, appState := AppState.preview } := by
  unfold takePicture
  rcases hv : env.videoRef with _ | v
  · left; rfl
  · rcases hc : env.canvasRef with _ | cv
    · left; rfl
    · cases hctx : env.ctx2d
      · left; simp [hctx]
      · right
        exact ⟨env.toDataURL ⟨v.videoWidth, v.videoHeight, v.pixels⟩, by simp [hctx]⟩

/-- Any run of `applyFilter` that ends in the processing state is a
successful run, whose error field was cleared at the start and never
rewritten. -/
theorem applyFilter_processing_error (env : UploadEnv) (s : Session) (fid : Nat)
    (h : (applyFilter env s fid).session.appState = AppState.processing) :
    (applyFilter env s fid).session.error = none := by
  rcases applyFilter_session_cases env s fid with heq | ⟨url, _, heq⟩
  · rw [heq] at h; cases h
  · rw [heq]; rfl

/-- C5 (confirmed): for every session state, the retake operation clears
`capturedImage` (rawImage) and `selectedFilter` and transitions the state
to camera. -/
theorem C5_retake_clears (s : Session) :
    (retakePicture s).capturedImage = none ∧
    (retakePicture s).selectedFilter = none ∧
    (retakePicture s).appState = AppState.camera :=
  ⟨rfl, rfl, rfl⟩

/-- C7 (confirmed): two `applyFilter` runs from the same session and the
same environment but with different filter ids hand the storage
collaborator the identical path and payload, store the identical
`resultImage`, and produce final sessions that agree on every field except
`selectedFilter`.  The selected filter has no effect on the uploaded
artifact or the result URL. -/
theorem C7_filter_no_effect (env : UploadEnv) (s : Session) (f1 f2 : Nat) :
    (applyFilter env s f1).uploaded = (applyFilter env s f2).uploaded ∧
    { (applyFilter env s f1).session with selectedFilter := none } =
      { (applyFilter env s f2).session with selectedFilter := none } ∧
    (applyFilter env s f1).session.processedImage =
      (applyFilter env s f2).session.processedImage ∧
    (applyFilter env s f1).session.selectedFilter = some f1 ∧
    (applyFilter env s f2).session.selectedFilter = some f2 := by
  unfold applyFilter
  rcases hci : s.capturedImage with _ | du
  · exact ⟨rfl, rfl, rfl, rfl, rfl⟩
  · simp only []
    rcases hdf : dataURLtoFile env.atob du (photoName env.now) with e | f
    · exact ⟨rfl, rfl, rfl, rfl, rfl⟩
    · simp only []
      rcases hup : env.upload (originalsDir ++ f.name) f with _ | m | _
      · simp only []
        rcases hurl : env.getPublicUrl (originalsDir ++ f.name) with e | url
        · exact ⟨rfl, rfl, rfl, rfl, rfl⟩
        · exact ⟨rfl, rfl, rfl, rfl, rfl⟩
      · exact ⟨rfl, rfl, rfl, rfl, rfl⟩
      · exact ⟨rfl, rfl, rfl, rfl, rfl⟩

/-- C9 (confirmed): a failed camera acquisition while in the camera state
is only logged: the whole component — in particular the session's state
and its unset error — is left exactly as it was. -/
theorem C9_silent_failure (vp : Bool) (c : CamComponent)
    (hcam : c.session.appState = AppState.camera)
    (herr : c.session.error = none) :
    startCamera vp AcquireOutcome.failure c = c ∧
    (startCamera vp AcquireOutcome.failure c).session.appState = AppState.camera ∧
    (startCamera vp AcquireOutcome.failure c).session.error = none :=
  ⟨rfl, hcam, herr⟩

theorem C9_silent_failure_witness :
    startCamera true AcquireOutcome.failure ⟨initialSession, none⟩ =
      ⟨initialSession, none⟩ :=
  (C9_silent_failure true ⟨initialSession, none⟩ rfl rfl).1

/-- C10 (confirmed): `applyFilter` never lets an exception escape — its
embedding is a total function whose every run ends either in the
catch-block state (preview, generic error) or the success state
(processing, no error); in particular a run started with `capturedImage`
unset, despite the non-null assertion, lands in the catch-block state. -/
theorem C10_no_escape (env : UploadEnv) (s : Session) (fid : Nat) :
    (((applyFilter env s fid).session.appState = AppState.preview ∧
      (applyFilter env s fid).session.error = some uploadFailMsg) ∨
     ((applyFilter env s fid).session.appState = AppState.processing ∧
      (applyFilter env s fid).session.error = none)) ∧
    (s.capturedImage = none →
      (applyFilter env s fid).session.appState = AppState.preview ∧
      (applyFilter env s fid).session.error = some uploadFailMsg) := by
  constructor
  · rcases applyFilter_session_cases env s fid with heq | ⟨url, _, heq⟩ <;> rw [heq]
    · exact Or.inl ⟨rfl, rfl⟩
    · exact Or.inr ⟨rfl, rfl⟩
  · intro hci
    simp only [applyFilter, hci]
    exact ⟨rfl, rfl⟩

theorem C10_no_escape_witness :
    (applyFilter demoOkEnv initialSession 1).session.appState = AppState.preview ∧
    (applyFilter demoOkEnv initialSession 1).session.error = some uploadFailMsg :=
  (C10_no_escape demoOkEnv initialSession 1).2 rfl

/-- C4 (confirmed): when decoding, upload and URL resolution all succeed,
the payload is uploaded under the generated path
`originals/photo-<timestamp>.png` and `resultImage` is set to the public
URL resolved for that exact same path, with `error` unset. -/
theorem C4_upload_success (env : UploadEnv) (s : Session) (fid : Nat)
    (du : String) (f : JsFile) (url : String)
    (hci : s.capturedImage = some du)
    (hdf : dataURLtoFile env.atob du (photoName env.now) = Except.ok f)
    (hup : env.upload (originalsDir ++ f.name) f = UploadOutcome.ok)
    (hurl : env.getPublicUrl (originalsDir ++ f.name) = Except.ok url) :
    f.name = photoName env.now ∧
    (applyFilter env s fid).uploaded = some (originalsDir ++ photoName env.now, f) ∧
    (applyFilter env s fid).session.processedImage = some url ∧
    (applyFilter env s fid).session.error = none := by
  have hname := dataURLtoFile_name env.atob du (photoName env.now) f hdf
  rw [hname] at hup hurl
  refine ⟨hname, ?_, ?_, ?_⟩ <;>
    (simp only [applyFilter, hci, hdf, hname, hup, hurl]; try rfl)

theorem C4_upload_success_witness :
    (applyFilter demoOkEnv previewSession 1).uploaded =
      some (originalsDir ++ photoName 0, demoFile) ∧
    (applyFilter demoOkEnv previewSession 1).session.processedImage =
      some demoResultUrl ∧
    (applyFilter demoOkEnv previewSession 1).session.error = none := by
  have h := C4_upload_success demoOkEnv previewSession 1 demoDataUrl demoFile
    demoResultUrl rfl rfl rfl rfl
  exact ⟨h.2.1, h.2.2.1, h.2.2.2⟩

/-- C1 (corrected, counterexample): a reachable session — capture, upload
successfully, then press "Take New Photo" — is back in the camera state
while `processedImage` is still set, because `retakePicture` clears only
`capturedImage` and `selectedFilter`.  This refutes "resultImage is set
only while state is Processing". -/
theorem C1_counterexample :
    Reach staleCameraSession ∧
    staleCameraSession.appState = AppState.camera ∧
    staleCameraSession.processedImage = some demoResultUrl ∧
    staleCameraSession.error = none :=
  ⟨reach_staleCameraSession, rfl, rfl, rfl⟩

/-- C1 (corrected, amended): in every reachable session that is in the
processing state, `error` is unset — the error half of the claimed
invariant does hold; only the only-while-Processing half fails. -/
theorem C1_amended_theorem (s : Session) (hre : Reach s) :
    s.appState = AppState.processing → s.error = none := by
  induction hre with
  | init => intro h; exact absurd h (by decide)
  | step hr hstep ih =>
      rename_i s0 s1
      cases hstep with
      | take env h0 =>
          rcases takePicture_session_cases env s0 with heq | ⟨du, heq⟩ <;> rw [heq]
          · exact ih
          · intro h; exact AppState.noConfusion h
      | retakePrev h0 h1 => intro h; exact AppState.noConfusion h
      | applyF env fid h0 h1 h2 => exact applyFilter_processing_error env s0 fid
      | tryAgain h0 h1 => intro h; exact AppState.noConfusion h
      | retakeResult h0 h1 h2 => intro h; exact AppState.noConfusion h

theorem C1_amended_witness :
    resultSession.appState = AppState.processing ∧ resultSession.error = none :=
  ⟨rfl, C1_amended_theorem resultSession reach_resultSession rfl⟩

/-- C2 (corrected, counterexample): at a reachable preview session with
`rawImage` set and a stale `processedImage`, the synchronous head of
`applyFilter` — run before the upload attempt begins — leaves
`processedImage` exactly as it was, and so does the whole failing run.
This refutes "clears ... any previously set resultImage". -/
theorem C2_counterexample :
    Reach stalePreviewSession ∧
    stalePreviewSession.appState = AppState.preview ∧
    stalePreviewSession.capturedImage.isSome = true ∧
    (applyFilterPrelude stalePreviewSession 2).processedImage = some demoResultUrl ∧
    (applyFilter demoFailEnv stalePreviewSession 2).session.processedImage =
      some demoResultUrl :=
  ⟨reach_stalePreviewSession, rfl, rfl, rfl, rfl⟩

/-- C2 (corrected, amended): before the upload attempt begins,
`applyFilter` clears any prior `error`, records the filter and enters
processing, but leaves `processedImage` (resultImage) unchanged. -/
theorem C2_amended_theorem (s : Session) (fid : Nat)
    (_hpre : s.appState = AppState.preview)
    (_hraw : s.capturedImage.isSome = true) :
    (applyFilterPrelude s fid).error = none ∧
    (applyFilterPrelude s fid).processedImage = s.processedImage ∧
    (applyFilterPrelude s fid).selectedFilter = some fid ∧
    (applyFilterPrelude s fid).appState = AppState.processing :=
  ⟨rfl, rfl, rfl, rfl⟩

theorem C2_amended_witness :
    (applyFilterPrelude previewSession 1).error = none ∧
    (applyFilterPrelude previewSession 1).processedImage = none :=
  ⟨(C2_amended_theorem previewSession 1 rfl rfl).1,
   (C2_amended_theorem previewSession 1 rfl rfl).2.1⟩

/-- C3 (corrected, counterexample): a failing run started at a reachable
preview session whose `processedImage` still holds a stale URL ends with
the generic error and state preview, but with `resultImage` SET, refuting
"resultImage unset" for every failing run. -/
theorem C3_counterexample :
    Reach stalePreviewSession ∧
    (applyFilter demoFailEnv stalePreviewSession 1).session.error = some uploadFailMsg ∧
    (applyFilter demoFailEnv stalePreviewSession 1).session.appState = AppState.preview ∧
    (applyFilter demoFailEnv stalePreviewSession 1).session.processedImage =
      some demoResultUrl ∧
    (applyFilter demoFailEnv stalePreviewSession 1).session.processedImage ≠ none :=
  ⟨reach_stalePreviewSession, rfl, rfl, rfl, fun h => Option.noConfusion h⟩

/-- C3 (corrected, amended): every failing run (equivalently, every run
whose final `error` is set) ends with `error` equal to the generic
message, state preview, and `processedImage` unchanged from before the
run — in particular unset whenever it was unset before. -/
theorem C3_amended_theorem (env : UploadEnv) (s : Session) (fid : Nat)
    (hfail : (applyFilter env s fid).session.error.isSome = true) :
    (applyFilter env s fid).session.error = some uploadFailMsg ∧
    (applyFilter env s fid).session.appState = AppState.preview ∧
    (applyFilter env s fid).session.processedImage = s.processedImage := by
  rcases applyFilter_session_cases env s fid with heq | ⟨url, _, heq⟩ <;> rw [heq] at hfail ⊢
  · exact ⟨rfl, rfl, rfl⟩
  · exact absurd hfail (by simp [applySuccessState])

theorem C3_amended_witness :
    (applyFilter demoFailEnv previewSession 1).session.error = some uploadFailMsg ∧
    (applyFilter demoFailEnv previewSession 1).session.appState = AppState.preview ∧
    (applyFilter demoFailEnv previewSession 1).session.processedImage = none :=
  C3_amended_theorem demoFailEnv previewSession 1 rfl

/-- C6 (confirmed): a capture-frame invocation in the camera state with a
live video of native resolution w×h and a ready canvas and context sizes
the canvas to w×h, stores the encoded frame (the browser's lossless
`toDataURL("image/png")` of the drawn w×h raster) as `capturedImage`, and
transitions to preview, changing no other session field; when a ref is
null, or the 2d context is unavailable, the session is left entirely
unchanged. -/
theorem C6_capture_frame (env : CaptureEnv) (s : Session)
    (_hcam : s.appState = AppState.camera) :
    (∀ v cv, env.videoRef = some v → env.canvasRef = some cv → env.ctx2d = true →
      (takePicture env s).canvas =
        some ⟨v.videoWidth, v.videoHeight,
          some ⟨v.videoWidth, v.videoHeight, v.pixels⟩⟩ ∧
      (takePicture env s).session.capturedImage =
        some (env.toDataURL ⟨v.videoWidth, v.videoHeight, v.pixels⟩) ∧
      (takePicture env s).session.appState = AppState.preview ∧
      (takePicture env s).session.processedImage = s.processedImage ∧
      (takePicture env s).session.selectedFilter = s.selectedFilter ∧
      (takePicture env s).session.error = s.error) ∧
    ((env.videoRef = none ∨ env.canvasRef = none) →
      (takePicture env s).session = s) ∧
    (env.ctx2d = false → (takePicture env s).session = s) := by
  refine ⟨?_, ?_, ?_⟩
  · intro v cv hv hc hctx
    simp [takePicture, hv, hc, hctx]
  · rintro (hv | hc)
    · simp [takePicture, hv]
    · rcases hv : env.videoRef with _ | v
      · simp [takePicture, hv]
      · simp [takePicture, hv, hc]
  · intro hctx
    rcases hv : env.videoRef with _ | v
    · simp [takePicture, hv]
    · rcases hc : env.canvasRef with _ | cv
      · simp [takePicture, hv, hc]
      · simp [takePicture, hv, hc, hctx]

theorem C6_capture_frame_witness :
    (takePicture demoCaptureEnv initialSession).session.capturedImage =
      some demoDataUrl ∧
    (takePicture demoCaptureEnv initialSession).session.appState =
      AppState.preview ∧
    (takePicture demoCaptureEnv initialSession).canvas =
      some ⟨640, 480, some ⟨640, 480, [7]⟩⟩ := by
  obtain ⟨hready, _, _⟩ := C6_capture_frame demoCaptureEnv initialSession rfl
  obtain ⟨hcv, hci, hst, _, _, _⟩ := hready ⟨640, 480, [7]⟩ ⟨0, 0, none⟩ rfl rfl rfl
  exact ⟨by rw [hci]; rfl, hst, hcv⟩

/-- C8 (code_bug): the claim — on every exit from the camera state every
track of the acquired stream is stopped, so at most one stream is ever
active — states the spec's resource contract, but the code cannot honour
it: the passive cleanup reads `videoRef.current` only after React's
mutation phase has unmounted the `<video>` element and detached the ref,
so it finds null and stops nothing.  Formally: every exit from the camera
state leaves the set of live streams exactly as it was, and the spec's
own mount → unmount → remount scenario ends with two live streams
instead of one. -/
theorem C8_tracks_never_stopped :
    (∀ c c', camStep c CamEvent.cleanup = some c' →
      c'.active = c.active ∧ c'.inCamera = false) ∧
    runCam initLifecycle remountTrace = some remountFinal ∧
    remountFinal.active = [0, 1] ∧
    remountFinal.active.length = 2 := by
  refine ⟨?_, rfl, rfl, rfl⟩
  intro c c' h
  cases hin : c.inCamera
  · simp [camStep, hin] at h
  · simp only [camStep, hin, if_pos, Option.some.injEq] at h
    exact ⟨by rw [← h], by rw [← h]⟩

theorem C8_tracks_never_stopped_witness :
    camStep camDemoPre CamEvent.cleanup = some camDemoPost ∧
    camDemoPost.active = camDemoPre.active ∧
    camDemoPost.active = [0] := by
  have h := (C8_tracks_never_stopped).1 camDemoPre camDemoPost rfl
  exact ⟨rfl, h.1, by rw [h.1]; rfl⟩
